import Mathlib

/-!
Verification development for `analyze_metrics.py`, a single-file script that
reads a CSV of transfer measurements, prints summary statistics and renders a
four-panel figure saved as a PNG.

Shallow embedding choices:
* A parsed CSV table is a list of rows with the five named numeric columns;
  float values are modelled as exact rationals.
* The pandas column reductions used by the script (`sum`, `mean`, `median`,
  `min`, `max`, `std` with its default `ddof=1`) are embedded as functions on
  `List ℚ`.  `std` returns the square root of the sample variance; since the
  square root of a rational is irrational in general, the embedding keeps the
  sample variance (`sampleVar`) and theorems about the reported standard
  deviation speak of `Real.sqrt` of that value.  On an empty column pandas
  produces `NaN` for mean/median/min/max/std; the embedding returns `0` there,
  and no claim below depends on those values.
* The filesystem is an oracle `String → Option Table`: `none` models a path
  for which `os.path.exists` is false, `some df` models an existing CSV that
  parses to the table `df`.
* Printing is modelled in two layers: the exact numeric values that the
  summary block prints (`Summary`, built by `mkSummary`), and the static
  structure of the formatted statistic prints on source lines 28-39
  (`summaryValues`: which column, which statistic, which format spec).
* `formatFixed` reproduces Python fixed-point formatting (round half to even)
  for the exact values the claims mention.
-/

namespace AnalyzeMetrics

/-- One row of `transfer_metrics.csv`: columns `Step`, `Size(MB)`, `Time(s)`,
`Throughput(MB/s)`, `Throughput(Mbps)`. -/
structure Row where
  step : ℚ
  sizeMB : ℚ
  timeS : ℚ
  tputMBs : ℚ
  tputMbps : ℚ
deriving DecidableEq, Repr

/-- A parsed CSV table: the ordered data rows (header excluded). -/
abbrev Table := List Row

/-- Column `df['Step']`. -/
def stepCol (df : Table) : List ℚ := df.map Row.step

/-- Column `df['Size(MB)']`. -/
def sizeCol (df : Table) : List ℚ := df.map Row.sizeMB

/-- Column `df['Time(s)']`. -/
def timeCol (df : Table) : List ℚ := df.map Row.timeS

/-- Column `df['Throughput(MB/s)']`. -/
def mbsCol (df : Table) : List ℚ := df.map Row.tputMBs

/-- Column `df['Throughput(Mbps)']`. -/
def mbpsCol (df : Table) : List ℚ := df.map Row.tputMbps

/-- pandas `Series.mean()`: sum divided by count (`0` for the empty column,
where pandas yields `NaN`; unused by the claims). -/
def pandasMean (l : List ℚ) : ℚ := l.sum / l.length

/-- pandas `Series.median()`: middle element of the ascending sort for odd
length, average of the two middle elements for even length (`0` for the empty
column, where pandas yields `NaN`; unused by the claims). -/
def pandasMedian (l : List ℚ) : ℚ :=
  let s := List.insertionSort (· ≤ ·) l
  let n := l.length
  if n = 0 then 0
  else if n % 2 = 1 then s.getD (n / 2) 0
  else (s.getD (n / 2 - 1) 0 + s.getD (n / 2) 0) / 2

/-- pandas `Series.min()` (`0` for the empty column, where pandas yields
`NaN`; unused by the claims). -/
def pandasMin : List ℚ → ℚ
  | [] => 0
  | x :: xs => xs.foldl min x

/-- pandas `Series.max()` (`0` for the empty column, where pandas yields
`NaN`; unused by the claims). -/
def pandasMax : List ℚ → ℚ
  | [] => 0
  | x :: xs => xs.foldl max x

/-- The sample variance pandas computes inside `Series.std()` with the
default `ddof=1`: squared deviations from the mean, divided by `N - 1`.
The value the script prints is the square root of this; theorems state that
as `Real.sqrt` of `sampleVar`.  (For `N ≤ 1` pandas yields `NaN`; here the
rational division by zero gives `0`.) -/
def sampleVar (l : List ℚ) : ℚ :=
  (l.map (fun x => (x - pandasMean l) ^ 2)).sum / ((l.length : ℚ) - 1)

/-- The exact numeric values printed by the summary block
(source lines 27-39), before fixed-point formatting.  The standard deviation
line prints `Real.sqrt stdSqMBs`; the embedding carries the radicand. -/
structure Summary where
  totalSteps : ℕ
  totalSizeMB : ℚ
  totalTimeS : ℚ
  avgMBs : ℚ
  avgMbps : ℚ
  medMBs : ℚ
  medMbps : ℚ
  minMBs : ℚ
  minMbps : ℚ
  maxMBs : ℚ
  maxMbps : ℚ
  stdSqMBs : ℚ
  avgTime : ℚ
  minTime : ℚ
  maxTime : ℚ
deriving DecidableEq, Repr

/-- The summary statistics the script computes and prints on lines 27-39. -/
def mkSummary (df : Table) : Summary where
  totalSteps := df.length
  totalSizeMB := (sizeCol df).sum
  totalTimeS := (timeCol df).sum
  avgMBs := pandasMean (mbsCol df)
  avgMbps := pandasMean (mbpsCol df)
  medMBs := pandasMedian (mbsCol df)
  medMbps := pandasMedian (mbpsCol df)
  minMBs := pandasMin (mbsCol df)
  minMbps := pandasMin (mbpsCol df)
  maxMBs := pandasMax (mbsCol df)
  maxMbps := pandasMax (mbpsCol df)
  stdSqMBs := sampleVar (mbsCol df)
  avgTime := pandasMean (timeCol df)
  minTime := pandasMin (timeCol df)
  maxTime := pandasMax (timeCol df)

/-- The source column a printed statistic is drawn from. -/
inductive Column
  | step
  | sizeMB
  | timeS
  | tputMBs
  | tputMbps
deriving DecidableEq, Repr, BEq

/-- The statistic a print statement reports. -/
inductive Stat
  | sum
  | mean
  | median
  | min
  | max
  | std
deriving DecidableEq, Repr, BEq

/-- A Python fixed-point format spec: `:.2f` or `:.3f`. -/
inductive NumFmt
  | f2
  | f3
deriving DecidableEq, Repr, BEq

/-- One formatted statistic inside the summary prints. -/
structure PrintedValue where
  col : Column
  stat : Stat
  fmt : NumFmt
deriving DecidableEq, Repr, BEq

/-- The formatted statistics printed by the summary block, in print order,
one entry per interpolated value (source lines 28-39):
line 28 `Size(MB)` sum `:.2f`; line 29 `Time(s)` sum `:.2f`;
line 31 mean MB/s and Mbps `:.2f`; line 32 median MB/s and Mbps `:.2f`;
line 33 min MB/s and Mbps `:.2f`; line 34 max MB/s and Mbps `:.2f`;
line 35 std MB/s only, `:.2f`; lines 37-39 `Time(s)` mean/min/max `:.3f`.
(The row count on line 27 is printed as an integer, not through a
fixed-point format, and so is not an entry here.) -/
def summaryValues : List PrintedValue :=
  [ ⟨Column.sizeMB, Stat.sum, NumFmt.f2⟩,
    ⟨Column.timeS, Stat.sum, NumFmt.f2⟩,
    ⟨Column.tputMBs, Stat.mean, NumFmt.f2⟩,
    ⟨Column.tputMbps, Stat.mean, NumFmt.f2⟩,
    ⟨Column.tputMBs, Stat.median, NumFmt.f2⟩,
    ⟨Column.tputMbps, Stat.median, NumFmt.f2⟩,
    ⟨Column.tputMBs, Stat.min, NumFmt.f2⟩,
    ⟨Column.tputMbps, Stat.min, NumFmt.f2⟩,
    ⟨Column.tputMBs, Stat.max, NumFmt.f2⟩,
    ⟨Column.tputMbps, Stat.max, NumFmt.f2⟩,
    ⟨Column.tputMBs, Stat.std, NumFmt.f2⟩,
    ⟨Column.timeS, Stat.mean, NumFmt.f3⟩,
    ⟨Column.timeS, Stat.min, NumFmt.f3⟩,
    ⟨Column.timeS, Stat.max, NumFmt.f3⟩ ]

/-- Panels A and B (source lines 47-54 and 57-64): a connected
line-with-markers plot of `x` against `y` with a horizontal reference
line at `hline`. -/
structure LinePanel where
  x : List ℚ
  y : List ℚ
  hline : ℚ
deriving DecidableEq, Repr

/-- Panel C (source lines 67-74): a bar chart of `x` against `y` with a
horizontal reference line at `hline`. -/
structure BarPanel where
  x : List ℚ
  y : List ℚ
  hline : ℚ
deriving DecidableEq, Repr

/-- Panel D (source lines 77-86): a histogram of `data` with `bins` bins and
vertical reference lines at the values in `vlines`. -/
structure HistPanel where
  data : List ℚ
  bins : ℕ
  vlines : List ℚ
deriving DecidableEq, Repr

/-- The 2x2 figure assembled on source lines 43-86. -/
structure Figure where
  panelA : LinePanel
  panelB : LinePanel
  panelC : BarPanel
  panelD : HistPanel
deriving DecidableEq, Repr

/-- The figure the script builds from the table (source lines 43-86):
A: step vs MB/s with mean hline; B: step vs Mbps with mean hline;
C: step vs time bars with mean hline; D: histogram of MB/s, 15 bins,
vlines at mean and median. -/
def buildFigure (df : Table) : Figure where
  panelA := ⟨stepCol df, mbsCol df, pandasMean (mbsCol df)⟩
  panelB := ⟨stepCol df, mbpsCol df, pandasMean (mbpsCol df)⟩
  panelC := ⟨stepCol df, timeCol df, pandasMean (timeCol df)⟩
  panelD := ⟨mbsCol df, 15, [pandasMean (mbsCol df), pandasMedian (mbsCol df)]⟩

/-- The image file written by `plt.savefig` (source lines 91-92). -/
structure SavedImage where
  filename : String
  dpi : ℕ
deriving DecidableEq, Repr

/-- The observable outcome of one run of `analyze_metrics`:
the error lines printed on the missing-file branch (lines 16-17),
the summary values printed on the success branch (lines 27-39),
the formatted statistic entries those prints contain,
the figure built (lines 43-86) and the image saved (lines 91-92). -/
structure ProgResult where
  errorLines : List String
  summary : Option Summary
  printed : List PrintedValue
  figure : Option Figure
  savedImage : Option SavedImage
deriving DecidableEq, Repr

/-- The filesystem as the script observes it: `none` for a path where
`os.path.exists` is false, `some df` for an existing CSV parsing to `df`. -/
abbrev FileSystem := String → Option Table

/-- Shallow embedding of `analyze_metrics(csv_file)` (source lines 12-96).
If the path does not exist it prints the two error lines and returns
(lines 15-18); otherwise it reads the table, prints the summary, builds the
figure and saves it as `transfer_performance.png` at 300 DPI
(lines 21-93). -/
def analyzeMetrics (fs : FileSystem) (csvFile : String) : ProgResult :=
  match fs csvFile with
  | none =>
      { errorLines :=
          [s!"Error: {csvFile} not found!",
           "Make sure to run the receiver first to generate metrics."]
        summary := none
        printed := []
        figure := none
        savedImage := none }
  | some df =>
      { errorLines := []
        summary := some (mkSummary df)
        printed := summaryValues
        figure := some (buildFigure df)
        savedImage := some ⟨"transfer_performance.png", 300⟩ }

/-- The CSV path chosen by the `__main__` block (source line 99):
`sys.argv[1]` when a positional argument is present, else the default
`transfer_metrics.csv`.  `argv` includes the script name at index 0. -/
def chosenCsvFile (argv : List String) : String :=
  if h : 1 < argv.length then argv[1] else "transfer_metrics.csv"

/-- The `__main__` block (source lines 98-100). -/
def main (fs : FileSystem) (argv : List String) : ProgResult :=
  analyzeMetrics fs (chosenCsvFile argv)

/-- Round a rational to the nearest integer, ties to even — the rounding
Python fixed-point formatting applies. -/
def roundHalfEven (q : ℚ) : ℤ :=
  let f : ℤ := ⌊q⌋
  let r : ℚ := q - f
  if r < 1 / 2 then f
  else if 1 / 2 < r then f + 1
  else if f % 2 = 0 then f else f + 1

/-- Left-pad a string with zeros to length `k`. -/
def padZeros (k : ℕ) (s : String) : String :=
  String.mk (List.replicate (k - s.length) '0') ++ s

/-- Python fixed-point formatting `:.precf` of an exact value: round half to
even at `prec` decimal places and render with exactly `prec` fractional
digits. -/
def formatFixed (prec : ℕ) (q : ℚ) : String :=
  let n : ℤ := roundHalfEven (q * (10 : ℚ) ^ prec)
  let sign := if n < 0 then "-" else ""
  let m : ℕ := n.natAbs
  let ip := m / 10 ^ prec
  let fp := m % 10 ^ prec
  if prec = 0 then sign ++ toString ip
  else sign ++ toString ip ++ "." ++ padZeros prec (toString fp)

/-- Recomputation following the spec's words ("standard statistical
definitions"): the mean of a column is its sum divided by the number of
rows. -/
def specMean (l : List ℚ) : ℚ := l.sum / l.length

/-- Recomputation following the spec's words: sample variance with the
`N - 1` denominator; the sample standard deviation is its square root. -/
def specSampleVar (l : List ℚ) : ℚ :=
  (l.map fun x => (x - specMean l) ^ 2).sum / ((l.length : ℚ) - 1)

/-- Spec-side characterisation: `m` is the minimum of the column under the
standard definition — a member that is below every member. -/
def isMinOf (m : ℚ) (l : List ℚ) : Prop := m ∈ l ∧ ∀ x ∈ l, m ≤ x

/-- Spec-side characterisation: `m` is the maximum of the column under the
standard definition — a member that is above every member. -/
def isMaxOf (m : ℚ) (l : List ℚ) : Prop := m ∈ l ∧ ∀ x ∈ l, x ≤ m

/-- Spec-side characterisation: `m` is the median of the column under the
standard definition — arrange the values in ascending order; `m` is the
middle value for odd count, the average of the two middle values for even
count.  Quantifying over every sorted rearrangement keeps the definition
independent of any particular sorting routine. -/
def isMedianOf (m : ℚ) (l : List ℚ) : Prop :=
  ∀ s : List ℚ, s.Perm l → s.Sorted (· ≤ ·) →
    m = if l.length % 2 = 1 then s.getD (l.length / 2) 0
        else (s.getD (l.length / 2 - 1) 0 + s.getD (l.length / 2) 0) / 2

/-- Every printed statistic of the summary block agrees with direct
recomputation from the input rows under the standard statistical
definitions (sums, means, medians, minima, maxima, and the sample standard
deviation with the `N - 1` denominator). -/
def statsMatchSpec (df : Table) : Prop :=
  (mkSummary df).totalSizeMB = (sizeCol df).sum ∧
  (mkSummary df).totalTimeS = (timeCol df).sum ∧
  (mkSummary df).avgMBs = specMean (mbsCol df) ∧
  (mkSummary df).avgMbps = specMean (mbpsCol df) ∧
  (mkSummary df).avgTime = specMean (timeCol df) ∧
  isMedianOf (mkSummary df).medMBs (mbsCol df) ∧
  isMedianOf (mkSummary df).medMbps (mbpsCol df) ∧
  isMinOf (mkSummary df).minMBs (mbsCol df) ∧
  isMinOf (mkSummary df).minMbps (mbpsCol df) ∧
  isMinOf (mkSummary df).minTime (timeCol df) ∧
  isMaxOf (mkSummary df).maxMBs (mbsCol df) ∧
  isMaxOf (mkSummary df).maxMbps (mbpsCol df) ∧
  isMaxOf (mkSummary df).maxTime (timeCol df) ∧
  Real.sqrt ((mkSummary df).stdSqMBs : ℝ) = Real.sqrt ((specSampleVar (mbsCol df) : ℚ) : ℝ)

/-- Whether the run printed the statistic `st` of column `c`. -/
def printsStat (r : ProgResult) (c : Column) (st : Stat) : Bool :=
  r.printed.any fun v => v.col == c && v.stat == st

/-- Whether the run printed the statistic `st` of column `c` under the
format spec `f`. -/
def printsFmt (r : ProgResult) (c : Column) (st : Stat) (f : NumFmt) : Bool :=
  r.printed.any fun v => v.col == c && v.stat == st && v.fmt == f

/-- A filesystem on which every path holds an empty table (a CSV with only
the header row). -/
def fsEmpty : FileSystem := fun _ => some []

/-- The two-row table of the spec's end-to-end example:
rows `(1,10,1.0,10.0,80.0)` and `(2,20,2.0,10.0,80.0)`. -/
def tbl5 : Table := [⟨1, 10, 1, 10, 80⟩, ⟨2, 20, 2, 10, 80⟩]

/-- A filesystem where the default input path holds `tbl5`. -/
def fs5 : FileSystem :=
  fun p => if p = "transfer_metrics.csv" then some tbl5 else none

/-- A two-row table whose throughput values all equal the one constant 10
(in both units). -/
def tblConst : Table := [⟨1, 5, 1, 10, 10⟩, ⟨2, 7, 2, 10, 10⟩]

/-- A filesystem on which no path exists. -/
def fsNone : FileSystem := fun _ => none

/-!
## Helper lemmas
-/

theorem foldl_min_le (xs : List ℚ) (a : ℚ) :
    xs.foldl min a ≤ a ∧ ∀ x ∈ xs, xs.foldl min a ≤ x := by
  induction xs generalizing a with
  | nil => simp
  | cons y ys ih =>
    simp only [List.foldl_cons, List.mem_cons]
    refine ⟨le_trans (ih (min a y)).1 (min_le_left a y), ?_⟩
    rintro x (rfl | hx)
    · exact le_trans (ih (min a x)).1 (min_le_right a x)
    · exact (ih (min a y)).2 x hx

theorem foldl_min_mem (xs : List ℚ) (a : ℚ) :
    xs.foldl min a = a ∨ xs.foldl min a ∈ xs := by
  induction xs generalizing a with
  | nil => simp
  | cons y ys ih =>
    simp only [List.foldl_cons, List.mem_cons]
    rcases ih (min a y) with h | h
    · rcases min_choice a y with hm | hm
      · left; rw [h, hm]
      · right; left; rw [h, hm]
    · right; right; exact h

theorem foldl_max_ge (xs : List ℚ) (a : ℚ) :
    a ≤ xs.foldl max a ∧ ∀ x ∈ xs, x ≤ xs.foldl max a := by
  induction xs generalizing a with
  | nil => simp
  | cons y ys ih =>
    simp only [List.foldl_cons, List.mem_cons]
    refine ⟨le_trans (le_max_left a y) (ih (max a y)).1, ?_⟩
    rintro x (rfl | hx)
    · exact le_trans (le_max_right a x) (ih (max a x)).1
    · exact (ih (max a y)).2 x hx

theorem foldl_max_mem (xs : List ℚ) (a : ℚ) :
    xs.foldl max a = a ∨ xs.foldl max a ∈ xs := by
  induction xs generalizing a with
  | nil => simp
  | cons y ys ih =>
    simp only [List.foldl_cons, List.mem_cons]
    rcases ih (max a y) with h | h
    · rcases max_choice a y with hm | hm
      · left; rw [h, hm]
      · right; left; rw [h, hm]
    · right; right; exact h

/-- The fold `pandasMin` computes is the minimum in the spec's sense. -/
theorem pandasMin_isMinOf (l : List ℚ) (h : l ≠ []) : isMinOf (pandasMin l) l := by
  match l, h with
  | x :: xs, _ =>
    constructor
    · simpa using foldl_min_mem xs x
    · intro y hy
      rcases List.mem_cons.mp hy with rfl | hy
      · exact (foldl_min_le xs y).1
      · exact (foldl_min_le xs x).2 y hy

/-- The fold `pandasMax` computes is the maximum in the spec's sense. -/
theorem pandasMax_isMaxOf (l : List ℚ) (h : l ≠ []) : isMaxOf (pandasMax l) l := by
  match l, h with
  | x :: xs, _ =>
    constructor
    · simpa using foldl_max_mem xs x
    · intro y hy
      rcases List.mem_cons.mp hy with rfl | hy
      · exact (foldl_max_ge xs y).1
      · exact (foldl_max_ge xs x).2 y hy

/-- `pandasMedian` agrees with the spec's median on every sorted
rearrangement of the column. -/
theorem pandasMedian_isMedianOf (l : List ℚ) : isMedianOf (pandasMedian l) l := by
  intro s hp hs
  have hsort : List.Sorted (· ≤ ·) (List.insertionSort (· ≤ ·) l) :=
    List.sorted_insertionSort (· ≤ ·) l
  have hperm : s.Perm (List.insertionSort (· ≤ ·) l) :=
    hp.trans (List.perm_insertionSort (· ≤ ·) l).symm
  have hse : s = List.insertionSort (· ≤ ·) l :=
    List.eq_of_perm_of_sorted hperm hs hsort
  subst hse
  by_cases h0 : l.length = 0
  · simp [pandasMedian, h0]
    rcases List.length_eq_zero.mp h0 with rfl
    have he : List.insertionSort (· ≤ ·) ([] : List ℚ) = [] := rfl
    simp [he]
  · simp only [pandasMedian, h0, if_false]

/-- Rounding an integer is the identity. -/
theorem roundHalfEven_intCast (z : ℤ) : roundHalfEven ((z : ℤ) : ℚ) = z := by
  simp [roundHalfEven]

/-- The mean of a constant nonempty column is that constant. -/
theorem pandasMean_const (l : List ℚ) (c : ℚ) (h : l ≠ [])
    (hc : ∀ x ∈ l, x = c) : pandasMean l = c := by
  have hn : (l.length : ℚ) ≠ 0 := by
    exact_mod_cast fun h0 => h (List.length_eq_zero.mp (by exact_mod_cast h0))
  have hsum : l.sum = l.length • c := List.sum_eq_card_nsmul l c hc
  rw [pandasMean, hsum, nsmul_eq_mul, mul_div_cancel_left₀ _ hn]

/-- A constant nonempty column has sample variance 0. -/
theorem sampleVar_const (l : List ℚ) (c : ℚ) (h : l ≠ [])
    (hc : ∀ x ∈ l, x = c) : sampleVar l = 0 := by
  have hm : pandasMean l = c := pandasMean_const l c h hc
  have hz : (l.map fun x => (x - pandasMean l) ^ 2).sum = 0 := by
    apply List.sum_eq_zero
    intro y hy
    rcases List.mem_map.mp hy with ⟨x, hx, rfl⟩
    rw [hm, hc x hx, sub_self]
    ring
  rw [sampleVar, hz, zero_div]

/-!
## Claims
-/

/-- Claim C3: for every input path that does not name an existing file, the
program prints the user-facing error lines and returns with no summary, no
figure and no output image file (the embedding is a total function, so the
run terminates normally rather than by exception). -/
theorem missing_file_graceful (fs : FileSystem) (path : String)
    (h : fs path = none) :
    (analyzeMetrics fs path).errorLines =
      [s!"Error: {path} not found!",
       "Make sure to run the receiver first to generate metrics."] ∧
    (analyzeMetrics fs path).savedImage = none ∧
    (analyzeMetrics fs path).figure = none ∧
    (analyzeMetrics fs path).summary = none := by
  simp [analyzeMetrics, h]

theorem missing_file_graceful_witness :
    (analyzeMetrics fsNone "transfer_metrics.csv").savedImage = none :=
  (missing_file_graceful fsNone "transfer_metrics.csv" rfl).2.1

/-- Claim C9: the printed row count (`Total steps`) equals the number of
rows of the table. -/
theorem row_count_eq_length (df : Table) :
    (mkSummary df).totalSteps = df.length := rfl

/-- Claim C6: for every table, the histogram panel draws the MB/s column
with exactly 15 bins and vertical reference lines at its mean and median. -/
theorem histogram_fixed_bins (df : Table) :
    (buildFigure df).panelD.bins = 15 ∧
    (buildFigure df).panelD.data = mbsCol df ∧
    (buildFigure df).panelD.vlines =
      [pandasMean (mbsCol df), pandasMedian (mbsCol df)] :=
  ⟨rfl, rfl, rfl⟩

/-- Claim C7: the input path is `sys.argv[1]` when a positional argument is
present and `transfer_metrics.csv` otherwise, and on the success branch the
figure is saved as `transfer_performance.png` at 300 DPI regardless of the
input path. -/
theorem cli_and_output_file :
    (∀ a p rest, chosenCsvFile (a :: p :: rest) = p) ∧
    (∀ a, chosenCsvFile [a] = "transfer_metrics.csv") ∧
    chosenCsvFile [] = "transfer_metrics.csv" ∧
    (∀ fs argv, main fs argv = analyzeMetrics fs (chosenCsvFile argv)) ∧
    (∀ (fs : FileSystem) (path : String) (df : Table), fs path = some df →
      (analyzeMetrics fs path).savedImage =
        some ⟨"transfer_performance.png", 300⟩) := by
  refine ⟨?_, fun a => rfl, rfl, fun fs argv => rfl, ?_⟩
  · intro a p rest
    simp [chosenCsvFile]
  · intro fs path df h
    simp [analyzeMetrics, h]

theorem cli_and_output_file_witness :
    chosenCsvFile ["prog", "data.csv"] = "data.csv" ∧
    (analyzeMetrics fsEmpty "data.csv").savedImage =
      some ⟨"transfer_performance.png", 300⟩ :=
  ⟨cli_and_output_file.1 "prog" "data.csv" [],
   cli_and_output_file.2.2.2.2 fsEmpty "data.csv" [] rfl⟩

/-- Claim C4: for every nonempty table, each printed sum, mean, median, min,
max and standard deviation agrees with direct recomputation from the input
rows under the standard statistical definitions, with the standard deviation
the square root of the sample variance with `N - 1` denominator. -/
theorem stats_match_recomputation (df : Table) (h : df ≠ []) :
    statsMatchSpec df := by
  have hmap : ∀ f : Row → ℚ, df.map f ≠ [] := by
    intro f hf
    exact h (List.map_eq_nil_iff.mp hf)
  refine ⟨rfl, rfl, rfl, rfl, rfl,
    pandasMedian_isMedianOf _, pandasMedian_isMedianOf _,
    pandasMin_isMinOf _ (hmap _), pandasMin_isMinOf _ (hmap _),
    pandasMin_isMinOf _ (hmap _),
    pandasMax_isMaxOf _ (hmap _), pandasMax_isMaxOf _ (hmap _),
    pandasMax_isMaxOf _ (hmap _), rfl⟩

theorem stats_match_recomputation_witness : statsMatchSpec tbl5 :=
  stats_match_recomputation tbl5 (by simp [tbl5])

/-- Claim C8: if every throughput value of a nonempty table equals one
constant `c`, the reported throughput means equal `c` and the reported
standard deviation (the square root of the sample variance the script
computes) is 0. -/
theorem const_tput_zero_std (df : Table) (c : ℚ) (h : df ≠ [])
    (hall : ∀ r ∈ df, r.tputMBs = c ∧ r.tputMbps = c) :
    (mkSummary df).avgMBs = c ∧ (mkSummary df).avgMbps = c ∧
    (mkSummary df).stdSqMBs = 0 ∧
    Real.sqrt (((mkSummary df).stdSqMBs : ℚ) : ℝ) = 0 := by
  have hmbs : ∀ x ∈ mbsCol df, x = c := by
    intro x hx
    rcases List.mem_map.mp hx with ⟨r, hr, rfl⟩
    exact (hall r hr).1
  have hmbps : ∀ x ∈ mbpsCol df, x = c := by
    intro x hx
    rcases List.mem_map.mp hx with ⟨r, hr, rfl⟩
    exact (hall r hr).2
  have hne : ∀ f : Row → ℚ, df.map f ≠ [] := by
    intro f hf
    exact h (List.map_eq_nil_iff.mp hf)
  have hvar : sampleVar (mbsCol df) = 0 := sampleVar_const _ c (hne _) hmbs
  refine ⟨pandasMean_const _ c (hne _) hmbs,
    pandasMean_const _ c (hne _) hmbps, hvar, ?_⟩
  show Real.sqrt ((sampleVar (mbsCol df) : ℚ) : ℝ) = 0
  rw [hvar]
  push_cast
  exact Real.sqrt_zero

theorem const_tput_zero_std_witness :
    (mkSummary tblConst).avgMBs = 10 ∧ (mkSummary tblConst).stdSqMBs = 0 :=
  ⟨(const_tput_zero_std tblConst 10 (by simp [tblConst]) (by decide)).1,
   (const_tput_zero_std tblConst 10 (by simp [tblConst]) (by decide)).2.2.1⟩

/-- Claim C10: an existing file holding only the header row does not take
the missing-file branch: the summary is computed with row count 0 and totals
formatted as 0.00, and the figure and output image are still produced —
there is no emptiness check before the remaining statistics. -/
theorem empty_table_no_error (fs : FileSystem) (path : String)
    (h : fs path = some []) :
    (analyzeMetrics fs path).errorLines = [] ∧
    (analyzeMetrics fs path).summary = some (mkSummary []) ∧
    (mkSummary ([] : Table)).totalSteps = 0 ∧
    formatFixed 2 (mkSummary ([] : Table)).totalSizeMB = "0.00" ∧
    formatFixed 2 (mkSummary ([] : Table)).totalTimeS = "0.00" ∧
    (analyzeMetrics fs path).figure = some (buildFigure []) ∧
    (analyzeMetrics fs path).savedImage =
      some ⟨"transfer_performance.png", 300⟩ := by
  have hz : (mkSummary ([] : Table)).totalSizeMB = ((0 : ℤ) : ℚ) := by
    norm_num [mkSummary, sizeCol]
  have hz2 : (mkSummary ([] : Table)).totalTimeS = ((0 : ℤ) : ℚ) := by
    norm_num [mkSummary, timeCol]
  have hf : formatFixed 2 ((0 : ℤ) : ℚ) = "0.00" := by
    have hr : roundHalfEven (((0 : ℤ) : ℚ) * (10 : ℚ) ^ 2) = 0 := by
      have e : ((0 : ℤ) : ℚ) * (10 : ℚ) ^ 2 = ((0 : ℤ) : ℚ) := by norm_num
      rw [e, roundHalfEven_intCast]
    simp only [formatFixed, hr]
    decide
  refine ⟨by simp [analyzeMetrics, h], by simp [analyzeMetrics, h], rfl,
    ?_, ?_, by simp [analyzeMetrics, h], by simp [analyzeMetrics, h]⟩
  · rw [hz]; exact hf
  · rw [hz2]; exact hf

theorem empty_table_no_error_witness :
    (analyzeMetrics fsEmpty "transfer_metrics.csv").errorLines = [] ∧
    (mkSummary ([] : Table)).totalSteps = 0 :=
  ⟨(empty_table_no_error fsEmpty "transfer_metrics.csv" rfl).1,
   (empty_table_no_error fsEmpty "transfer_metrics.csv" rfl).2.2.1⟩

/-- Claim C1 counterexample: on an existing input file the program does not
print a standard deviation for the Mbps column, so the claim that all five
statistics appear for both throughput columns fails. -/
theorem mbps_std_not_printed :
    (fsEmpty "transfer_metrics.csv").isSome = true ∧
    printsStat (analyzeMetrics fsEmpty "transfer_metrics.csv")
      Column.tputMbps Stat.std = false := by
  constructor
  · rfl
  · decide

/-- Claim C1 (amended): when the input file exists, the program prints mean,
median, min and max for both throughput columns, and a standard deviation
only for the MB/s column. -/
theorem throughput_stats_printed (fs : FileSystem) (path : String)
    (df : Table) (h : fs path = some df) :
    printsStat (analyzeMetrics fs path) Column.tputMBs Stat.mean = true ∧
    printsStat (analyzeMetrics fs path) Column.tputMBs Stat.median = true ∧
    printsStat (analyzeMetrics fs path) Column.tputMBs Stat.min = true ∧
    printsStat (analyzeMetrics fs path) Column.tputMBs Stat.max = true ∧
    printsStat (analyzeMetrics fs path) Column.tputMBs Stat.std = true ∧
    printsStat (analyzeMetrics fs path) Column.tputMbps Stat.mean = true ∧
    printsStat (analyzeMetrics fs path) Column.tputMbps Stat.median = true ∧
    printsStat (analyzeMetrics fs path) Column.tputMbps Stat.min = true ∧
    printsStat (analyzeMetrics fs path) Column.tputMbps Stat.max = true ∧
    printsStat (analyzeMetrics fs path) Column.tputMbps Stat.std = false := by
  have hp : (analyzeMetrics fs path).printed = summaryValues := by
    simp [analyzeMetrics, h]
  simp only [printsStat, hp]
  decide

theorem throughput_stats_printed_witness :
    printsStat (analyzeMetrics fsEmpty "transfer_metrics.csv")
      Column.tputMBs Stat.std = true :=
  (throughput_stats_printed fsEmpty "transfer_metrics.csv" [] rfl).2.2.2.2.1

/-- Claim C2 counterexample: the sum of the time column is printed with the
2-decimal format and not the 3-decimal one, so the claim that every
time-derived value uses 3 decimal places fails. -/
theorem time_sum_two_decimals :
    (fsEmpty "transfer_metrics.csv").isSome = true ∧
    printsFmt (analyzeMetrics fsEmpty "transfer_metrics.csv")
      Column.timeS Stat.sum NumFmt.f3 = false ∧
    printsFmt (analyzeMetrics fsEmpty "transfer_metrics.csv")
      Column.timeS Stat.sum NumFmt.f2 = true := by
  refine ⟨rfl, by decide, by decide⟩

/-- Claim C2 (amended): every printed value from a non-time column uses the
2-decimal format; the time column's mean, min and max use the 3-decimal
format, but the time column's sum uses the 2-decimal format. -/
theorem format_precision (fs : FileSystem) (path : String)
    (df : Table) (h : fs path = some df) :
    ((analyzeMetrics fs path).printed.all fun v =>
      if v.col == Column.timeS then
        (if v.stat == Stat.sum then v.fmt == NumFmt.f2
         else v.fmt == NumFmt.f3)
      else v.fmt == NumFmt.f2) = true := by
  have hp : (analyzeMetrics fs path).printed = summaryValues := by
    simp [analyzeMetrics, h]
  rw [hp]
  decide

theorem format_precision_witness :
    ((analyzeMetrics fsEmpty "transfer_metrics.csv").printed.all fun v =>
      if v.col == Column.timeS then
        (if v.stat == Stat.sum then v.fmt == NumFmt.f2
         else v.fmt == NumFmt.f3)
      else v.fmt == NumFmt.f2) = true :=
  format_precision fsEmpty "transfer_metrics.csv" [] rfl

/-- Claim C5: on the spec's two-row example the program prints total size
30.00 MB, total time 3.00 s, mean throughput 10.00 MB/s and 80.00 Mbps, and
saves the output image file. -/
theorem end_to_end_example :
    (analyzeMetrics fs5 "transfer_metrics.csv").errorLines = [] ∧
    (analyzeMetrics fs5 "transfer_metrics.csv").summary =
      some (mkSummary tbl5) ∧
    formatFixed 2 (mkSummary tbl5).totalSizeMB = "30.00" ∧
    formatFixed 2 (mkSummary tbl5).totalTimeS = "3.00" ∧
    formatFixed 2 (mkSummary tbl5).avgMBs = "10.00" ∧
    formatFixed 2 (mkSummary tbl5).avgMbps = "80.00" ∧
    (analyzeMetrics fs5 "transfer_metrics.csv").savedImage =
      some ⟨"transfer_performance.png", 300⟩ := by
  have e1 : (mkSummary tbl5).totalSizeMB = ((30 : ℤ) : ℚ) := by
    norm_num [mkSummary, sizeCol, tbl5]
  have e2 : (mkSummary tbl5).totalTimeS = ((3 : ℤ) : ℚ) := by
    norm_num [mkSummary, timeCol, tbl5]
  have e3 : (mkSummary tbl5).avgMBs = ((10 : ℤ) : ℚ) := by
    norm_num [mkSummary, pandasMean, mbsCol, tbl5]
  have e4 : (mkSummary tbl5).avgMbps = ((80 : ℤ) : ℚ) := by
    norm_num [mkSummary, pandasMean, mbpsCol, tbl5]
  have hfmt : ∀ z : ℤ, formatFixed 2 ((z : ℤ) : ℚ) =
      (if (z * 100 : ℤ) < 0 then "-" else "") ++
        toString ((z * 100 : ℤ).natAbs / 10 ^ 2) ++ "." ++
        padZeros 2 (toString ((z * 100 : ℤ).natAbs % 10 ^ 2)) := by
    intro z
    have hr : roundHalfEven (((z : ℤ) : ℚ) * (10 : ℚ) ^ 2) = z * 100 := by
      have e : ((z : ℤ) : ℚ) * (10 : ℚ) ^ 2 = (((z * 100 : ℤ) : ℤ) : ℚ) := by
        push_cast
        ring
      rw [e, roundHalfEven_intCast]
    simp [formatFixed, hr]
  refine ⟨by simp [analyzeMetrics, fs5], by simp [analyzeMetrics, fs5],
    ?_, ?_, ?_, ?_, by simp [analyzeMetrics, fs5]⟩
  · rw [e1, hfmt]; decide
  · rw [e2, hfmt]; decide
  · rw [e3, hfmt]; decide
  · rw [e4, hfmt]; decide

end AnalyzeMetrics
